import Mathlib

/-!
Verification of `src/sensors/powershell_position_source.cpp`
(`OpenOrienteering::PowershellPositionSource`).

The adapter shells out to `powershell.exe`, parses semicolon-delimited
`Position;...` lines from its output, and maintains a last-known-position
plus an error condition, emitting Qt signals (`positionUpdated`,
`error`, `updateTimeout`).

The shallow embedding below models:
 * doubles as exact values (`Dbl`): NaN, plus/minus infinity, or a rational --
   the program never computes with the doubles, it only parses, stores and
   compares them, so exact rationals are adequate;
 * `QString::toDouble` (Qt 5, C locale, group separators rejected);
 * `QDateTime::fromString(.., Qt::ISODate)` restricted to the grammar
   `YYYY-MM-DD[<sep>HH:MM[:SS][Z]]`, with local times modelled as UTC and a
   `QDateTime` modelled as `Option Int` (milliseconds since the epoch,
   `none` = invalid);
 * the adapter state (timers, flags, child-process state) as a record, with
   each C++ slot/member function a state-transition function returning the
   new state and the list of emitted Qt signals.
-/

set_option linter.unusedVariables false

namespace PowershellPosition

/-- Exact model of a C++ `double` as used by the position source: the source
only parses, stores and compares doubles, so NaN, the infinities and exact
rational values cover all behaviour exercised here. -/
inductive Dbl where
  | nan
  | inf
  | neginf
  | val (q : ℚ)
deriving DecidableEq

/-- Model of `qIsNaN`. -/
def Dbl.isNaN : Dbl → Bool
  | .nan => true
  | _ => false

/-- Range check `lo <= d && d <= hi` for a double; false for NaN and the infinities. -/
def Dbl.between (lo hi : ℚ) : Dbl → Bool
  | .val q => decide (lo ≤ q) && decide (q ≤ hi)
  | _ => false

/-! ### Model of QString::toDouble

Model of Qt 5's `QString::toDouble(bool *ok)`:
`QLocaleData::c()->stringToDouble` first normalizes the string
(`numberToCLocale`: strip surrounding whitespace, pass digits, `+`, `-`,
`.`, map `e`/`E` to `e`, pass letters lowercased, reject the group
separator `,` and everything else), then `qt_asciiToDouble` accepts the
exact strings `nan`, `inf`, `+inf`, `-inf` (rejecting `+nan`/`-nan`) and
otherwise parses `[sign] digits ['.' digits] ['e' [sign] digits]` with at
least one mantissa digit and no trailing junk. Values are modelled exactly
(no rounding to binary floating point). -/

/-- Model of `QChar::isSpace` on Latin-1 input. -/
def isQtSpace (c : Char) : Bool :=
  c = ' ' || (9 ≤ c.toNat && c.toNat ≤ 13) || c.toNat = 0x85 || c.toNat = 0xA0

/-- Strip leading and trailing whitespace. -/
def trimQt (s : List Char) : List Char :=
  ((s.dropWhile isQtSpace).reverse.dropWhile isQtSpace).reverse

/-- Model of `QLocaleData::numberToCLocale` (C locale, `RejectGroupSeparator`). -/
def mapToCLocale : List Char → Option (List Char)
  | [] => some []
  | c :: cs =>
    let out : Option Char :=
      if c.isDigit then some c
      else if c = '+' then some '+'
      else if c = '-' then some '-'
      else if c = '.' then some '.'
      else if c = 'e' || c = 'E' then some 'e'
      else if c = ',' then none
      else if 'a' ≤ c && c ≤ 'z' then some c
      else if 'A' ≤ c && c ≤ 'Z' then some (Char.ofNat (c.toNat + 32))
      else none
    match out with
    | none => none
    | some o => (mapToCLocale cs).map (o :: ·)

/-- Decimal digits to a natural number. -/
def digitsToNat (l : List Char) : Nat :=
  l.foldl (fun n c => n * 10 + (c.toNat - 48)) 0

/-- Grammar `[sign] digits ['.' digits] ['e' [sign] digits]`, whole string,
at least one mantissa digit. -/
def parseDecimal (l : List Char) : Option Dbl :=
  let sl : Int × List Char :=
    match l with
    | '+' :: r => (1, r)
    | '-' :: r => (-1, r)
    | _ => (1, l)
  let sgn := sl.1
  let l1 := sl.2
  let ip := l1.takeWhile Char.isDigit
  let l2 := l1.dropWhile Char.isDigit
  let fl : List Char × List Char :=
    match l2 with
    | '.' :: r => (r.takeWhile Char.isDigit, r.dropWhile Char.isDigit)
    | _ => ([], l2)
  let fp := fl.1
  let l3 := fl.2
  if ip.isEmpty && fp.isEmpty then none
  else
    let mant : Int := sgn * (digitsToNat (ip ++ fp) : Int)
    let finish : Int → Dbl := fun e10 =>
      if 0 ≤ e10 then .val (mkRat (mant * ((10 : Int) ^ e10.toNat)) 1)
      else .val (mkRat mant ((10 : Nat) ^ (-e10).toNat))
    match l3 with
    | [] => some (finish (0 - (fp.length : Int)))
    | 'e' :: r =>
      let el : Int × List Char :=
        match r with
        | '+' :: t => (1, t)
        | '-' :: t => (-1, t)
        | _ => (1, r)
      let ed := el.2.takeWhile Char.isDigit
      let r2 := el.2.dropWhile Char.isDigit
      if ed.isEmpty || !r2.isEmpty then none
      else some (finish (el.1 * (digitsToNat ed : Int) - (fp.length : Int)))
    | _ => none

/-- Model of `qt_asciiToDouble` on the normalized C-locale string. -/
def asciiToDouble (l : List Char) : Option Dbl :=
  if l.isEmpty then none
  else if l = "nan".toList then some .nan
  else if l = "+nan".toList || l = "-nan".toList then none
  else if l = "inf".toList || l = "+inf".toList then some .inf
  else if l = "-inf".toList then some .neginf
  else parseDecimal l

/-- Model of `QString::toDouble`: `none` when `ok` would be set to false. -/
def toDouble (s : List Char) : Option Dbl :=
  match mapToCLocale (trimQt s) with
  | none => none
  | some cs => asciiToDouble cs

/-- Failure behaviour: `QString::toDouble(bool *ok)` returns `0.0` together with `ok = false`
on failure. -/
def toDoubleOk (s : List Char) : Dbl × Bool :=
  match toDouble s with
  | some d => (d, true)
  | none => (Dbl.val 0, false)

/-! ### Model of QDateTime::fromString with Qt::ISODate

Modelled from the Qt library (the repository only calls it): a `QDateTime`
is modelled as `Option Int` -- milliseconds since the Unix epoch, `none`
for an invalid datetime.  The parser covers the grammar
`YYYY-MM-DD[<sep>HH:MM[:SS][Z]]` (as Qt does, the separator character at
index 10 is skipped without being inspected); fractional seconds and
`+hh:mm`/`-hh:mm` offset suffixes are outside the modelled subset (they
parse to `none`), and local times are modelled as UTC. -/

/-- Two decimal digits. -/
def digit2 (a b : Char) : Option Nat :=
  if a.isDigit && b.isDigit then some ((a.toNat - 48) * 10 + (b.toNat - 48)) else none

def isLeapYear (y : Nat) : Bool :=
  (y % 4 = 0 && y % 100 ≠ 0) || y % 400 = 0

def daysInMonth (y m : Nat) : Nat :=
  if m = 2 then (if isLeapYear y then 29 else 28)
  else if m = 4 || m = 6 || m = 9 || m = 11 then 30
  else 31

/-- Days between 1970-01-01 and `y-m-d` (valid for `y ≥ 1`). -/
def daysFromCivil (y m d : Nat) : Int :=
  let y' := if m ≤ 2 then y - 1 else y
  let era := y' / 400
  let yoe := y' - era * 400
  let mp := if m > 2 then m - 3 else m + 9
  let doy := (153 * mp + 2) / 5 + d - 1
  let doe := yoe * 365 + yoe / 4 - yoe / 100 + doy
  ((era * 146097 + doe : Nat) : Int) - 719468

/-- Model of `QDate::fromString(.., Qt::ISODate)` on a 10-character `YYYY-MM-DD`. -/
def parseISODate10 (l : List Char) : Option (Nat × Nat × Nat) :=
  match l with
  | [y1, y2, y3, y4, '-', m1, m2, '-', d1, d2] =>
    match digit2 y1 y2, digit2 y3 y4, digit2 m1 m2, digit2 d1 d2 with
    | some yh, some yl, some m, some d =>
      let y := yh * 100 + yl
      if 1 ≤ y && 1 ≤ m && m ≤ 12 && 1 ≤ d && d ≤ daysInMonth y m then
        some (y, m, d)
      else none
    | _, _, _, _ => none
  | _ => none

/-- Time of day `HH:MM` or `HH:MM:SS` to seconds of day. -/
def parseTimeSecs (l : List Char) : Option Nat :=
  match l with
  | [h1, h2, ':', n1, n2] =>
    match digit2 h1 h2, digit2 n1 n2 with
    | some hh, some mm =>
      if hh ≤ 23 && mm ≤ 59 then some (hh * 3600 + mm * 60) else none
    | _, _ => none
  | [h1, h2, ':', n1, n2, ':', s1, s2] =>
    match digit2 h1 h2, digit2 n1 n2, digit2 s1 s2 with
    | some hh, some mm, some ss =>
      if hh ≤ 23 && mm ≤ 59 && ss ≤ 59 then some (hh * 3600 + mm * 60 + ss) else none
    | _, _, _ => none
  | _ => none

/-- Time-of-day part with an optional trailing `Z` (UTC). -/
def parseISOTimeTZ (l : List Char) : Option Nat :=
  match l.reverse with
  | 'Z' :: restRev => parseTimeSecs restRev.reverse
  | _ => parseTimeSecs l

/-- Model of `QDateTime::fromString(s, Qt::ISODate)` (modelled subset, see above). -/
def parseISODateTime (s : List Char) : Option Int :=
  if s.length < 10 then none
  else
    match parseISODate10 (s.take 10) with
    | none => none
    | some (y, m, d) =>
      let days := daysFromCivil y m d
      if s.length = 10 then some (days * 86400000)
      else
        match parseISOTimeTZ (s.drop 11) with
        | none => none
        | some secs => some (days * 86400000 + (secs : Int) * 1000)

/-! ### Models of QGeoCoordinate and QGeoPositionInfo -/

/-- Model of `QGeoCoordinate`: latitude, longitude, optional altitude (an unset
altitude is NaN in Qt; modelled as `none`). -/
structure QGeoCoordinate where
  latitude : Dbl
  longitude : Dbl
  altitude : Option Dbl
deriving DecidableEq

/-- Default-constructed `QGeoCoordinate` (all NaN). -/
def QGeoCoordinate.invalid : QGeoCoordinate :=
  { latitude := .nan, longitude := .nan, altitude := none }

/-- Model of `QGeoCoordinate::isValid`: latitude within [-90, 90] and longitude
within [-180, 180] (NaN fails both). -/
def QGeoCoordinate.isValid (c : QGeoCoordinate) : Bool :=
  c.latitude.between (-90) 90 && c.longitude.between (-180) 180

/-- Model of `QGeoPositionInfo`: a coordinate, a timestamp, and the two accuracy
attributes (unset attributes modelled as `none`). -/
structure QGeoPositionInfo where
  coord : QGeoCoordinate
  timestamp : Option Int
  h_accuracy : Option Dbl
  v_accuracy : Option Dbl
deriving DecidableEq

/-- Default-constructed `QGeoPositionInfo`. -/
def QGeoPositionInfo.invalid : QGeoPositionInfo :=
  { coord := .invalid, timestamp := none, h_accuracy := none, v_accuracy := none }

/-- Model of `QGeoPositionInfo::isValid`: valid timestamp and valid coordinate. -/
def QGeoPositionInfo.isValid (p : QGeoPositionInfo) : Bool :=
  p.timestamp.isSome && p.coord.isValid

/-! ### Adapter state -/

/-- Model of `QGeoPositionInfoSource::Error` (Qt 5 enum; the source only ever sets
`noError`, `closedError` and `unknownSourceError` -- the latter is what the
specification calls both `SourceUnavailable` and `MalformedData`). -/
inductive PositionError where
  | accessError
  | closedError
  | unknownSourceError
  | noError
deriving DecidableEq

/-- Model of `QProcess::ProcessState`. -/
inductive ProcState where
  | notRunning
  | starting
  | running
deriving DecidableEq

/-- Commands written to the child process's input stream. -/
inductive PSCmd where
  | script
  | positionRequest
  | keepAlive
deriving DecidableEq

/-- Externally observable effects: Qt signals emitted by the adapter and
writes to the child process. -/
inductive Event where
  | positionUpdated (p : QGeoPositionInfo)
  | errorSignaled (e : PositionError)
  | updateTimeout
  | wrote (c : PSCmd)
deriving DecidableEq

/-- The adapter's mutable state: the members of `PowershellPositionSource`
(script, error, last position, `updates_ongoing`, the two single-shot
timers, the child process) together with the `updateInterval` property
inherited from `QGeoPositionInfoSource`.  `configured` records whether the
constructor reached the part that sets up program/arguments and connects
the process and timer signals. -/
structure PSState where
  powershell_script : List Char
  configured : Bool
  position_error : PositionError
  last_position : QGeoPositionInfo
  updates_ongoing : Bool
  update_interval : Int
  periodic_timer_active : Bool
  periodic_timer_interval : Int
  single_timer_active : Bool
  single_timer_interval : Int
  process : ProcState
deriving DecidableEq

/-- Model of `PowershellPositionSource::setError`: store the error; for any value
other than `NoError` emit the `error` signal (on every call, not only on a
change of the stored value). -/
def setError (e : PositionError) (s : PSState) : PSState × List Event :=
  let s' := { s with position_error := e }
  if e = .noError then (s', []) else (s', [.errorSignaled e])

/-- State of a freshly allocated object, before the constructor body. -/
def initialState (script : List Char) : PSState :=
  { powershell_script := script
    configured := false
    position_error := .noError
    last_position := .invalid
    updates_ongoing := false
    update_interval := 0
    periodic_timer_active := false
    periodic_timer_interval := 0
    single_timer_active := false
    single_timer_interval := 0
    process := .notRunning }

/-- Model of `PowershellPositionSource::PowershellPositionSource(QByteArray&&, ..)`:
an empty script sets `UnknownSourceError` and returns before the process
and timers are configured and connected. -/
def construct (script : List Char) : PSState × List Event :=
  let s0 := initialState script
  if script.isEmpty then setError .unknownSourceError s0
  else ({ s0 with configured := true }, [])

/-- Model of `PowershellPositionSource::minimumUpdateInterval`. -/
def minimumUpdateInterval : Int := 1000

/-- Model of `PowershellPositionSource::init`: start the child process if it is not
running (`spawnOk` says whether `powershell.exe` can be started in this
environment); on failure clear `updates_ongoing` and set
`UnknownSourceError`; on success set the periodic timer's interval to the
`updateInterval` property. -/
def init (spawnOk : Bool) (s : PSState) : PSState × Bool × List Event :=
  if s.process ≠ .notRunning then (s, true, [])
  else
    let s1 := { s with process := if spawnOk then .starting else .notRunning }
    if s1.process = .notRunning then
      let r := setError .unknownSourceError { s1 with updates_ongoing := false }
      (r.1, false, r.2)
    else
      ({ s1 with periodic_timer_interval := s.update_interval }, true, [])

/-- Model of `PowershellPositionSource::startUpdates`. -/
def startUpdates (spawnOk : Bool) (s : PSState) : PSState × List Event :=
  let r := init spawnOk s
  if r.2.1 then
    ({ r.1 with updates_ongoing := true, periodic_timer_active := true }, r.2.2)
  else (r.1, r.2.2)

/-- Model of `PowershellPositionSource::stopUpdates`: only when `updates_ongoing`,
stop the periodic timer, clear the flag and kill the child process. -/
def stopUpdates (s : PSState) : PSState :=
  if s.updates_ongoing then
    { s with periodic_timer_active := false
             updates_ongoing := false
             process := .notRunning }
  else s

/-- Model of `PowershellPositionSource::requestUpdate(int timeout)`. -/
def requestUpdate (spawnOk : Bool) (timeout : Int) (s : PSState) :
    PSState × List Event :=
  let r := init spawnOk s
  if r.2.1 then
    let r2 := setError .noError r.1
    if timeout = 0 then
      ({ r2.1 with single_timer_active := true, single_timer_interval := 120000 },
       r.2.2 ++ r2.2)
    else if timeout < minimumUpdateInterval then
      (r2.1, r.2.2 ++ r2.2 ++ [.updateTimeout])
    else
      ({ r2.1 with single_timer_active := true, single_timer_interval := timeout },
       r.2.2 ++ r2.2)
  else (r.1, r.2.2)

/-- Model of `PowershellPositionSource::powershellStateChanged`: on `Running`, write
the script, and additionally a one-shot position request when the single
update timer is armed; on `NotRunning`, clear `updates_ongoing`. -/
def powershellStateChanged (new_state : ProcState) (s : PSState) :
    PSState × List Event :=
  match new_state with
  | .starting => ({ s with process := .starting }, [])
  | .running =>
    ({ s with process := .running },
     Event.wrote .script ::
       (if s.single_timer_active then [Event.wrote .positionRequest] else []))
  | .notRunning => ({ s with process := .notRunning, updates_ongoing := false }, [])

/-- Model of `PowershellPositionSource::nativePositionUpdate`: stop the periodic
timer, store the record, restart the periodic timer when continuous updates
are ongoing, stop a pending single update timer, clear the error condition
and emit `positionUpdated`. -/
def nativePositionUpdate (pos : QGeoPositionInfo) (s : PSState) :
    PSState × List Event :=
  let s1 := { s with periodic_timer_active := false, last_position := pos }
  let s2 := if s1.updates_ongoing then { s1 with periodic_timer_active := true } else s1
  let s3 := if s2.single_timer_active then { s2 with single_timer_active := false } else s2
  let r := setError .noError s3
  (r.1, r.2 ++ [.positionUpdated r.1.last_position])

/-- Model of `PowershellPositionSource::periodicUpdateTimeout`: when a valid last
position exists, clone it with the timestamp advanced by `updateInterval()`
milliseconds, store and emit it; in any case restart the periodic timer. -/
def periodicUpdateTimeout (s : PSState) : PSState × List Event :=
  if s.last_position.isValid then
    let virtual_position :=
      { s.last_position with
          timestamp := s.last_position.timestamp.map (· + s.update_interval) }
    ({ s with last_position := virtual_position, periodic_timer_active := true },
     [.positionUpdated virtual_position])
  else
    ({ s with periodic_timer_active := true }, [])

/-- Model of `PowershellPositionSource::singleUpdateTimeout`: emit `updateTimeout`
while the single update timer counts as active. -/
def singleUpdateTimeout (s : PSState) : PSState × List Event :=
  if s.single_timer_active then (s, [.updateTimeout]) else (s, [])

/-! ### Model of PowershellPositionSource::processPosition

The C++ walks the line with two indices:

    auto pos = 0;
    auto next_pos = line.indexOf(';', pos + 1);
    read():  pos = next_pos + 1;
             next_pos = line.indexOf(';', pos);
             return slice [pos, next_pos)

`indexOf` returns -1 when no further `;` exists (modelled as `none`).
After such a read, the following read restarts at `pos = -1 + 1 = 0`.
A slice with `next_pos = -1` has negative length:
 * `QString::fromLatin1(ptr + pos, negative)` falls back to `strlen`,
   i.e. it yields the rest of the (null-terminated) line buffer
   (`read_string`, modelled by `readField`);
 * `QByteArray::fromRawData(ptr + pos, negative)` yields a byte array with
   a negative size, which compares unequal to `"Ready"`
   (`read_cstring`, modelled by `readCString` returning `none`). -/

/-- Index of the first `';'` at position `≥ i` in the suffix handed to it,
counting from `i`. -/
def semiFromAux : List Char → Nat → Option Nat
  | [], _ => none
  | c :: cs, i => if c = ';' then some i else semiFromAux cs (i + 1)

/-- Model of `line.indexOf(';', i)`: `none` plays the role of -1. -/
def semiFrom (line : List Char) (i : Nat) : Option Nat :=
  semiFromAux (line.drop i) i

/-- The two cursor variables of `processPosition`. -/
structure Reader where
  pos : Nat
  next : Option Nat
deriving DecidableEq

/-- Model of `read_string`: advance the cursor and return the next field;
`QString::fromLatin1` with a negative length yields the rest of the line. -/
def readField (line : List Char) (r : Reader) : Reader × List Char :=
  let pos : Nat := match r.next with | some n => n + 1 | none => 0
  let next := semiFrom line pos
  let slice := match next with
    | some n => (line.drop pos).take (n - pos)
    | none => line.drop pos
  (⟨pos, next⟩, slice)

/-- Model of `read_cstring`: like `readField`, but `QByteArray::fromRawData` with a
negative length yields a negative-size array, modelled as `none` (it is
never equal to `"Ready"`). -/
def readCString (line : List Char) (r : Reader) : Reader × Option (List Char) :=
  let pos : Nat := match r.next with | some n => n + 1 | none => 0
  let next := semiFrom line pos
  let slice := match next with
    | some n => some ((line.drop pos).take (n - pos))
    | none => none
  (⟨pos, next⟩, slice)

/-- The status read: `pos = 0; next_pos = line.indexOf(';', pos + 1);`
followed by `read_cstring()`. -/
def statusR (line : List Char) : Reader × Option (List Char) :=
  readCString line ⟨0, semiFrom line 1⟩

/-- Timestamp field read. -/
def tsR (line : List Char) : Reader × List Char :=
  readField line (statusR line).1

/-- Latitude field read. -/
def latR (line : List Char) : Reader × List Char :=
  readField line (tsR line).1

/-- Longitude field read. -/
def lonR (line : List Char) : Reader × List Char :=
  readField line (latR line).1

/-- Altitude field read. -/
def altR (line : List Char) : Reader × List Char :=
  readField line (lonR line).1

/-- Horizontal accuracy field read. -/
def haccR (line : List Char) : Reader × List Char :=
  readField line (altR line).1

/-- Vertical accuracy field read. -/
def vaccR (line : List Char) : Reader × List Char :=
  readField line (haccR line).1

/-- The local `position` record that `processPosition` builds from the
parsed fields: coordinate (altitude only attached when the vertical
accuracy is not NaN), the parsed timestamp, the horizontal accuracy
attribute and (when not NaN) the vertical accuracy attribute.

The source then calls `nativePositionUpdate(last_position)` -- passing the
member `last_position` instead of this freshly built local `position`,
which is left unused. -/
def parsedPosition (line : List Char) : QGeoPositionInfo :=
  let date_time := parseISODateTime (tsR line).2
  let latitude := (toDoubleOk (latR line).2).1
  let longitude := (toDoubleOk (lonR line).2).1
  let altitude := (toDoubleOk (altR line).2).1
  let h_accuracy := (toDoubleOk (haccR line).2).1
  let v_accuracy := (toDoubleOk (vaccR line).2).1
  { coord :=
      { latitude := latitude
        longitude := longitude
        altitude := if v_accuracy.isNaN then none else some altitude }
    timestamp := date_time
    h_accuracy := some h_accuracy
    v_accuracy := if v_accuracy.isNaN then none else some v_accuracy }

/-- Model of `PowershellPositionSource::processPosition(const QByteArray& line)`.

Branches, in source order:
 * status field ≠ `"Ready"` → `setError(ClosedError)`, position fields
   not read;
 * final `pos == 0` (the last read wrapped around), invalid timestamp, or
   any of the five `toDouble` conversions failed → record rejected,
   `setError(UnknownSourceError)`;
 * horizontal accuracy is NaN → record silently discarded (debug log
   only);
 * otherwise `nativePositionUpdate(last_position)` -- the freshly parsed
   record (`parsedPosition line`) is built but not passed. -/
def processPosition (line : List Char) (s : PSState) : PSState × List Event :=
  if (statusR line).2 ≠ some "Ready".toList then
    setError .closedError s
  else if ((vaccR line).1.pos = 0
      ∨ parseISODateTime (tsR line).2 = none
      ∨ ((toDoubleOk (latR line).2).2 && (toDoubleOk (lonR line).2).2
          && (toDoubleOk (altR line).2).2 && (toDoubleOk (haccR line).2).2
          && (toDoubleOk (vaccR line).2).2) = false) then
    setError .unknownSourceError s
  else if (toDoubleOk (haccR line).2).1.isNaN then
    (s, [])
  else
    nativePositionUpdate s.last_position s

/-- Predicate: `seg` is a contiguous in-bounds segment of `line`: every field
extraction of `processPosition` stays inside the line buffer. -/
def SegmentOf (seg line : List Char) : Prop :=
  ∃ i k, seg = (line.drop i).take k

/-- The `Position;Ready;` tag common to the well-formed-status lines. -/
def posReadyTag : List Char := "Position;Ready;".toList

/-- The well-formed example line of C1 and of the specification. -/
def c1Line : List Char :=
  "Position;Ready;2020-01-01T00:00:00Z;52.5;13.4;34.0;5.0;3.0".toList

/-! ## General lemmas about the field reader -/

theorem semiFromAux_no_semi {a : List Char} (ha : ';' ∉ a) (i : Nat) :
    semiFromAux a i = none := by
  induction a generalizing i with
  | nil => rfl
  | cons c cs ih =>
    have hc : ¬(c = ';') := fun h => ha (h ▸ List.mem_cons_self c cs)
    simp only [semiFromAux, if_neg hc]
    exact ih (fun h => ha (List.mem_cons_of_mem _ h)) (i + 1)

theorem semiFromAux_semi {a : List Char} (ha : ';' ∉ a) (t : List Char) (i : Nat) :
    semiFromAux (a ++ ';' :: t) i = some (i + a.length) := by
  induction a generalizing i with
  | nil => simp [semiFromAux]
  | cons c cs ih =>
    have hc : ¬(c = ';') := fun h => ha (h ▸ List.mem_cons_self c cs)
    simp only [List.cons_append, semiFromAux, if_neg hc]
    rw [show cs.append (';' :: t) = cs ++ ';' :: t from rfl,
      ih (fun h => ha (List.mem_cons_of_mem _ h)) (i + 1)]
    simp only [List.length_cons, Option.some.injEq]
    omega

theorem readField_eq (line : List Char) (x n : Nat) :
    readField line ⟨x, some n⟩
      = (⟨n + 1, semiFrom line (n + 1)⟩,
         match semiFrom line (n + 1) with
         | some m => (line.drop (n + 1)).take (m - (n + 1))
         | none => line.drop (n + 1)) := rfl

theorem readField_eq_wrap (line : List Char) (x : Nat) :
    readField line ⟨x, none⟩
      = (⟨0, semiFrom line 0⟩,
         match semiFrom line 0 with
         | some m => (line.drop 0).take (m - 0)
         | none => line.drop 0) := rfl

/-- A mid-line field read: the field `a` is returned and the cursor lands
on the `';'` behind it. -/
theorem readField_step {line a t : List Char} {n x : Nat}
    (hd : line.drop (n + 1) = a ++ ';' :: t) (ha : ';' ∉ a) :
    readField line ⟨x, some n⟩ = (⟨n + 1, some (n + 1 + a.length)⟩, a)
      ∧ line.drop (n + 1 + a.length + 1) = t := by
  have hsemi : semiFrom line (n + 1) = some (n + 1 + a.length) := by
    unfold semiFrom; rw [hd]; exact semiFromAux_semi ha t (n + 1)
  refine ⟨?_, ?_⟩
  · rw [readField_eq, hsemi, hd]
    have hlen : n + 1 + a.length - (n + 1) = a.length := by omega
    simp only [hlen, List.take_left]
  · have h3 : n + 1 + (a.length + 1) = n + 1 + a.length + 1 := by omega
    have h2 : line.drop (n + 1 + a.length + 1)
        = (line.drop (n + 1)).drop (a.length + 1) := by
      rw [List.drop_drop, h3]
    have hl : (a ++ [';']).length = a.length + 1 := by simp
    rw [h2, hd, List.append_cons, List.drop_left' hl]

/-- The final field read: no further `';'`, the rest of the line is
returned and the cursor's `next_pos` becomes -1 (`none`). -/
theorem readField_last {line a : List Char} {n x : Nat}
    (hd : line.drop (n + 1) = a) (ha : ';' ∉ a) :
    readField line ⟨x, some n⟩ = (⟨n + 1, none⟩, a) := by
  have hsemi : semiFrom line (n + 1) = none := by
    unfold semiFrom; rw [hd]; exact semiFromAux_no_semi ha _
  rw [readField_eq, hsemi, hd]

/-- A read after the cursor wrapped (`pos = -1 + 1 = 0`): the first field
of the whole line is returned. -/
theorem readField_wrap {line a t : List Char} {x : Nat}
    (hd : line = a ++ ';' :: t) (ha : ';' ∉ a) :
    readField line ⟨x, none⟩ = (⟨0, some a.length⟩, a)
      ∧ line.drop (a.length + 1) = t := by
  have hsemi : semiFrom line 0 = some a.length := by
    unfold semiFrom
    rw [List.drop_zero, hd]
    simpa using semiFromAux_semi ha t 0
  refine ⟨?_, ?_⟩
  · rw [readField_eq_wrap, hsemi, List.drop_zero, hd]
    simp only [Nat.sub_zero, List.take_left]
  · rw [hd, List.append_cons, List.drop_left']
    simp

/-- Every field extraction is total and in bounds: whatever the cursor
state, the returned slice is a contiguous segment of the line. -/
theorem readField_segment (line : List Char) (r : Reader) :
    SegmentOf (readField line r).2 line := by
  obtain ⟨x, next⟩ := r
  cases next with
  | some n =>
    rw [readField_eq]
    cases hsemi : semiFrom line (n + 1) with
    | some m => exact ⟨n + 1, m - (n + 1), by simp⟩
    | none => exact ⟨n + 1, (line.drop (n + 1)).length, by simp [List.take_length]⟩
  | none =>
    rw [readField_eq_wrap]
    cases hsemi : semiFrom line 0 with
    | some m => exact ⟨0, m - 0, by simp⟩
    | none => exact ⟨0, (line.drop 0).length, by simp [List.take_length]⟩

/-- Splitting off the first `';'` of a list that contains `n + 1` of them. -/
theorem count_semi_split {l : List Char} {n : Nat}
    (h : l.count ';' = n + 1) :
    ∃ a b, ';' ∉ a ∧ b.count ';' = n ∧ l = a ++ ';' :: b := by
  induction l with
  | nil => simp [List.count_nil] at h
  | cons c cs ih =>
    by_cases hc : c = ';'
    · subst hc
      refine ⟨[], cs, by simp, ?_, rfl⟩
      simpa [List.count_cons] using h
    · have h' : cs.count ';' = n + 1 := by
        simpa [List.count_cons, hc] using h
      obtain ⟨a, b, ha, hb, rfl⟩ := ih h'
      refine ⟨c :: a, b, ?_, hb, rfl⟩
      intro hmem
      rcases List.mem_cons.mp hmem with h | h
      · exact hc h.symm
      · exact ha h

theorem count_semi_zero {l : List Char} (h : l.count ';' = 0) : ';' ∉ l :=
  List.count_eq_zero.mp h

/-- On a line with the `Position;Ready;` tag, the status read returns
`"Ready"` and leaves the cursor on the `';'` at index 14, whatever
follows the tag. -/
theorem statusR_tag (rest : List Char) :
    statusR (posReadyTag ++ rest) = (⟨9, some 14⟩, some "Ready".toList) := rfl

theorem drop15_tag (rest : List Char) :
    (posReadyTag ++ rest).drop 15 = rest := rfl

theorem setError_emit {e : PositionError} (s : PSState) (he : ¬(e = .noError)) :
    setError e s = ({ s with position_error := e }, [.errorSignaled e]) := by
  unfold setError
  rw [if_neg he]

theorem init_skip {spawnOk : Bool} {s : PSState} (hp : s.process ≠ .notRunning) :
    init spawnOk s = (s, true, []) := by
  unfold init
  rw [if_pos hp]

theorem init_spawn {s : PSState} (hp : s.process = .notRunning) :
    init true s
      = ({ s with
            process := .starting
            periodic_timer_interval := s.update_interval }, true, []) := by
  simp [init, hp]

theorem init_fail {s : PSState} (hp : s.process = .notRunning) :
    init false s
      = ({ s with
            updates_ongoing := false
            position_error := .unknownSourceError },
         false, [.errorSignaled .unknownSourceError]) := by
  simp [init, setError, hp]

/-! ## The claims -/

/-- C5: for every `Position;...` line whose status token is not `"Ready"`,
processing the line sets the `ClosedError` condition and returns without
reading the position fields: no `positionUpdated` signal is emitted and the
last-known position is unchanged. -/
theorem c5_non_ready_status_closed_error (line : List Char) (s : PSState)
    (htag : line.take 9 = "Position;".toList)
    (hstatus : (statusR line).2 ≠ some "Ready".toList) :
    processPosition line s
      = ({ s with position_error := .closedError },
         [Event.errorSignaled .closedError])
    ∧ (∀ p, Event.positionUpdated p ∉ (processPosition line s).2)
    ∧ (processPosition line s).1.last_position = s.last_position := by
  have h1 : processPosition line s = setError .closedError s := by
    unfold processPosition
    rw [if_pos hstatus]
  rw [h1, setError_emit s (by simp)]
  refine ⟨rfl, ?_, rfl⟩
  intro p hp
  simp at hp

/-- C5 witness: the line `Position;Closed;...` is rejected with
`ClosedError` and no position update. -/
theorem c5_witness :
    ("Position;Closed;2020-01-01T00:00:00Z;52.5;13.4;34.0;5.0;3.0".toList.take 9
        = "Position;".toList)
    ∧ processPosition "Position;Closed;2020-01-01T00:00:00Z;52.5;13.4;34.0;5.0;3.0".toList
          (initialState ['S'])
        = ({ initialState ['S'] with position_error := .closedError },
           [Event.errorSignaled .closedError]) :=
  ⟨by decide,
   (c5_non_ready_status_closed_error _ (initialState ['S']) (by decide) (by decide)).1⟩

/-- C3 counterexample: setting the same non-`NoError` condition twice in a
row emits the `error` signal twice, although the stored error value only
transitioned once -- refuting "emits exactly once per transition". -/
theorem c3_repeated_error_emits_twice :
    (setError .closedError (construct ['S']).1).2
        = [Event.errorSignaled .closedError]
    ∧ (setError .closedError (setError .closedError (construct ['S']).1).1).2
        = [Event.errorSignaled .closedError]
    ∧ (setError .closedError (construct ['S']).1).1.position_error
        = (setError .closedError (setError .closedError (construct ['S']).1).1).1.position_error := by
  decide

/-- C3 (amended): `setError` stores the error value; every call with a
non-`NoError` value emits the `error` signal (also for repeated identical
values), and a call with `NoError` emits nothing. -/
theorem c3_setError_emits_per_call (e : PositionError) (s : PSState) :
    setError e s
      = ({ s with position_error := e },
         if e = .noError then [] else [Event.errorSignaled e]) := by
  unfold setError
  by_cases h : e = .noError <;> simp [h]

/-- C8: constructing the adapter with an empty script sets
`UnknownSourceError` (the specification's `SourceUnavailable`), starts no
child process, and returns before the process and the timers are
configured and connected. -/
theorem c8_empty_script_unavailable :
    (construct []).1.position_error = .unknownSourceError
    ∧ (construct []).1.process = .notRunning
    ∧ (construct []).1.configured = false
    ∧ (construct []).1.last_position = QGeoPositionInfo.invalid := by
  decide

/-- C9: `stopUpdates` in continuous mode disarms the periodic timer,
clears `updates_ongoing` and kills the child process; when continuous
mode is inactive it changes nothing, so `stopUpdates` is idempotent. -/
theorem c9_stopUpdates_idempotent (s : PSState) :
    (s.updates_ongoing = true →
      stopUpdates s
        = { s with
              periodic_timer_active := false
              updates_ongoing := false
              process := .notRunning })
    ∧ (s.updates_ongoing = false → stopUpdates s = s)
    ∧ stopUpdates (stopUpdates s) = stopUpdates s := by
  refine ⟨fun h => ?_, fun h => ?_, ?_⟩
  · simp [stopUpdates, h]
  · simp [stopUpdates, h]
  · by_cases h : s.updates_ongoing = true
    · simp [stopUpdates, h]
    · have h' : s.updates_ongoing = false := by
        cases hb : s.updates_ongoing
        · rfl
        · exact absurd hb h
      simp [stopUpdates, h']

/-- C9 witness: from a state in continuous mode with a running process,
`stopUpdates` stops timer, flag and process, and a second call is a
no-op. -/
theorem c9_witness :
    ({ initialState ['S'] with
        updates_ongoing := true
        periodic_timer_active := true
        process := .running }).updates_ongoing = true
    ∧ stopUpdates { initialState ['S'] with
          updates_ongoing := true
          periodic_timer_active := true
          process := .running }
        = { { initialState ['S'] with
              updates_ongoing := true
              periodic_timer_active := true
              process := .running } with
            periodic_timer_active := false
            updates_ongoing := false
            process := .notRunning }
    ∧ stopUpdates (stopUpdates { initialState ['S'] with
          updates_ongoing := true
          periodic_timer_active := true
          process := .running })
        = stopUpdates { initialState ['S'] with
            updates_ongoing := true
            periodic_timer_active := true
            process := .running } :=
  ⟨by decide,
   (c9_stopUpdates_idempotent _).1 (by decide),
   (c9_stopUpdates_idempotent _).2.2⟩

/-- C1: processing the well-formed example line parses exactly
lat = 52.5, lon = 13.4, altitude = 34.0 attached, h_accuracy = 5.0,
v_accuracy = 3.0 (see `parsedPosition`), and the error condition is
cleared -- but the source passes `last_position` instead of the freshly
built `position` to `nativePositionUpdate`, so the record that is stored
and emitted is the previous (here: default-invalid) position, not the
parsed one. -/
theorem c1_accepted_line_emits_stale_record :
    parsedPosition c1Line
      = { coord :=
            { latitude := .val (mkRat 105 2)     -- 52.5
              longitude := .val (mkRat 67 5)     -- 13.4
              altitude := some (.val 34) }
          timestamp := some 1577836800000        -- 2020-01-01T00:00:00Z
          h_accuracy := some (.val 5)
          v_accuracy := some (.val 3) }
    ∧ (processPosition c1Line (construct ['S']).1).2
        = [Event.positionUpdated QGeoPositionInfo.invalid]
    ∧ (processPosition c1Line (construct ['S']).1).1.last_position
        = QGeoPositionInfo.invalid
    ∧ (processPosition c1Line (construct ['S']).1).1.position_error = .noError
    ∧ Event.positionUpdated (parsedPosition c1Line)
        ∉ (processPosition c1Line (construct ['S']).1).2 := by
  decide

/-- C2 counterexample: the error set for a malformed record (non-numeric
latitude) is `UnknownSourceError` -- the very same error value that an
empty script (the specification's `SourceUnavailable` case) produces, so
the malformed-data error kind is not distinct from the source-unavailable
kind. -/
theorem c2_malformed_error_kind_not_distinct :
    (processPosition
        "Position;Ready;2020-01-01T00:00:00Z;abc;13.4;34.0;5.0;3.0".toList
        (initialState ['S'])).1.position_error
      = (construct []).1.position_error
    ∧ (processPosition
        "Position;Ready;2020-01-01T00:00:00Z;abc;13.4;34.0;5.0;3.0".toList
        (initialState ['S'])).1.position_error
      = .unknownSourceError := by
  decide

/-- C2 (amended): on a `Position;Ready;...` line, if the timestamp or any
of the five numeric fields fails to parse, the record is rejected: the
error condition becomes `UnknownSourceError` (the same error kind the
source uses for an unavailable source), no `positionUpdated` signal is
emitted, and the last-known position is unchanged. -/
theorem c2_malformed_line_rejected (rest : List Char) (s : PSState)
    (hfail : parseISODateTime (tsR (posReadyTag ++ rest)).2 = none
      ∨ (toDoubleOk (latR (posReadyTag ++ rest)).2).2 = false
      ∨ (toDoubleOk (lonR (posReadyTag ++ rest)).2).2 = false
      ∨ (toDoubleOk (altR (posReadyTag ++ rest)).2).2 = false
      ∨ (toDoubleOk (haccR (posReadyTag ++ rest)).2).2 = false
      ∨ (toDoubleOk (vaccR (posReadyTag ++ rest)).2).2 = false) :
    processPosition (posReadyTag ++ rest) s
      = ({ s with position_error := .unknownSourceError },
         [Event.errorSignaled .unknownSourceError])
    ∧ (∀ p, Event.positionUpdated p ∉ (processPosition (posReadyTag ++ rest) s).2)
    ∧ (processPosition (posReadyTag ++ rest) s).1.last_position = s.last_position := by
  have hstatus : (statusR (posReadyTag ++ rest)).2 = some "Ready".toList := by
    rw [statusR_tag]
  have hcond : (vaccR (posReadyTag ++ rest)).1.pos = 0
      ∨ parseISODateTime (tsR (posReadyTag ++ rest)).2 = none
      ∨ ((toDoubleOk (latR (posReadyTag ++ rest)).2).2
          && (toDoubleOk (lonR (posReadyTag ++ rest)).2).2
          && (toDoubleOk (altR (posReadyTag ++ rest)).2).2
          && (toDoubleOk (haccR (posReadyTag ++ rest)).2).2
          && (toDoubleOk (vaccR (posReadyTag ++ rest)).2).2) = false := by
    rcases hfail with h | h | h | h | h | h
    · exact Or.inr (Or.inl h)
    all_goals exact Or.inr (Or.inr (by simp [h]))
  have h1 : processPosition (posReadyTag ++ rest) s
      = setError .unknownSourceError s := by
    unfold processPosition
    rw [if_neg (by simp [hstatus]), if_pos hcond]
  rw [h1, setError_emit s (by simp)]
  refine ⟨rfl, ?_, rfl⟩
  intro p hp
  simp at hp

/-- C2 witness: a non-numeric latitude field is rejected with
`UnknownSourceError` and no position update. -/
theorem c2_witness :
    ((toDoubleOk (latR (posReadyTag
          ++ "2020-01-01T00:00:00Z;abc;13.4;34.0;5.0;3.0".toList)).2).2 = false)
    ∧ processPosition
        (posReadyTag ++ "2020-01-01T00:00:00Z;abc;13.4;34.0;5.0;3.0".toList)
        (initialState ['S'])
        = ({ initialState ['S'] with position_error := .unknownSourceError },
           [Event.errorSignaled .unknownSourceError]) :=
  ⟨by decide,
   (c2_malformed_line_rejected "2020-01-01T00:00:00Z;abc;13.4;34.0;5.0;3.0".toList
      (initialState ['S']) (Or.inr (Or.inl (by decide)))).1⟩

/-- C6: a `Position;Ready;...` line that is otherwise well formed (status
`Ready`, parseable timestamp and numbers, no cursor wrap-around) but whose
horizontal accuracy parses to NaN is silently discarded: the state is
completely unchanged (in particular the error condition and the last-known
position) and nothing is emitted. -/
theorem c6_nan_haccuracy_silently_discarded (line : List Char) (s : PSState)
    (hready : (statusR line).2 = some "Ready".toList)
    (hpos : ¬((vaccR line).1.pos = 0))
    (hts : ¬(parseISODateTime (tsR line).2 = none))
    (hlat : (toDoubleOk (latR line).2).2 = true)
    (hlon : (toDoubleOk (lonR line).2).2 = true)
    (halt : (toDoubleOk (altR line).2).2 = true)
    (hhacc : (toDoubleOk (haccR line).2).2 = true)
    (hvacc : (toDoubleOk (vaccR line).2).2 = true)
    (hnan : (toDoubleOk (haccR line).2).1.isNaN = true) :
    processPosition line s = (s, []) := by
  unfold processPosition
  rw [if_neg (by simp [hready])]
  rw [if_neg (by
    push_neg
    exact ⟨hpos, hts, by simp [hlat, hlon, halt, hhacc, hvacc]⟩)]
  rw [if_pos hnan]

/-- C6 witness: the specification's NaN-accuracy example line leaves the
state untouched and emits nothing. -/
theorem c6_witness :
    ((toDoubleOk (haccR
        "Position;Ready;2020-01-01T00:00:00Z;52.5;13.4;34.0;NaN;3.0".toList).2).1.isNaN
      = true)
    ∧ processPosition
        "Position;Ready;2020-01-01T00:00:00Z;52.5;13.4;34.0;NaN;3.0".toList
        (initialState ['S'])
      = (initialState ['S'], []) :=
  ⟨by decide,
   c6_nan_haccuracy_silently_discarded
     "Position;Ready;2020-01-01T00:00:00Z;52.5;13.4;34.0;NaN;3.0".toList
     (initialState ['S'])
     (by decide) (by decide) (by decide) (by decide) (by decide)
     (by decide) (by decide) (by decide) (by decide)⟩

/-- C7: when the periodic timer fires with a valid last-known position,
the adapter stores and emits a synthetic record equal to the last-known
position with its timestamp advanced by exactly one update interval
(coordinate and accuracies unchanged), and re-arms the periodic timer. -/
theorem c7_periodic_timeout_synthetic_update (s : PSState)
    (h : s.last_position.isValid = true) :
    periodicUpdateTimeout s
      = ({ s with
            last_position := { s.last_position with
              timestamp := s.last_position.timestamp.map (· + s.update_interval) }
            periodic_timer_active := true },
         [Event.positionUpdated { s.last_position with
            timestamp := s.last_position.timestamp.map (· + s.update_interval) }])
    ∧ ({ s.last_position with
          timestamp := s.last_position.timestamp.map (· + s.update_interval)
          } : QGeoPositionInfo).coord = s.last_position.coord
    ∧ ({ s.last_position with
          timestamp := s.last_position.timestamp.map (· + s.update_interval)
          } : QGeoPositionInfo).h_accuracy = s.last_position.h_accuracy
    ∧ ({ s.last_position with
          timestamp := s.last_position.timestamp.map (· + s.update_interval)
          } : QGeoPositionInfo).v_accuracy = s.last_position.v_accuracy := by
  refine ⟨?_, rfl, rfl, rfl⟩
  unfold periodicUpdateTimeout
  rw [if_pos h]

/-- C4 counterexample: with the child process not running,
`requestUpdate(500)` does spawn the process (refuting "no process is
spawned"), while it does signal the timeout immediately and arms no
single-shot timer. -/
theorem c4_small_timeout_spawns_process :
    (construct ['S']).1.process = ProcState.notRunning
    ∧ (requestUpdate true 500 (construct ['S']).1).1.process ≠ ProcState.notRunning
    ∧ (requestUpdate true 500 (construct ['S']).1).2 = [Event.updateTimeout]
    ∧ (requestUpdate true 500 (construct ['S']).1).1.single_timer_active = false := by
  decide

/-- C4 (amended): for `0 < t < minimumUpdateInterval()`, `requestUpdate(t)`
first runs `init()` -- spawning the child process when it is not running --
then immediately signals `updateTimeout`; the single-shot timer is not
armed, no command is written, and when the process later reports `Running`
only the script (no position request) is written. -/
theorem c4_small_timeout_behaviour (spawnOk : Bool) (t : Int) (s : PSState)
    (h0 : 0 < t) (h1 : t < minimumUpdateInterval) :
    (s.process = .notRunning → spawnOk = true →
      requestUpdate spawnOk t s
        = ({ s with
              process := .starting
              periodic_timer_interval := s.update_interval
              position_error := .noError }, [Event.updateTimeout]))
    ∧ (s.process ≠ .notRunning →
      requestUpdate spawnOk t s
        = ({ s with position_error := .noError }, [Event.updateTimeout]))
    ∧ (∀ c, Event.wrote c ∉ (requestUpdate spawnOk t s).2)
    ∧ (requestUpdate spawnOk t s).1.single_timer_active = s.single_timer_active
    ∧ (s.single_timer_active = false →
        (powershellStateChanged .running (requestUpdate spawnOk t s).1).2
          = [Event.wrote .script]) := by
  have hne : ¬(t = 0) := by omega
  have hcases : requestUpdate spawnOk t s
        = ({ s with
              process := .starting
              periodic_timer_interval := s.update_interval
              position_error := .noError }, [Event.updateTimeout])
      ∨ requestUpdate spawnOk t s
        = ({ s with position_error := .noError }, [Event.updateTimeout])
      ∨ requestUpdate spawnOk t s
        = ({ s with
              updates_ongoing := false
              position_error := .unknownSourceError },
           [Event.errorSignaled .unknownSourceError]) := by
    by_cases hp : s.process = .notRunning
    · cases hsp : spawnOk
      · refine Or.inr (Or.inr ?_)
        unfold requestUpdate
        rw [init_fail hp]
        simp
      · refine Or.inl ?_
        unfold requestUpdate
        rw [init_spawn hp]
        simp [setError, hne, h1]
    · refine Or.inr (Or.inl ?_)
      unfold requestUpdate
      rw [init_skip hp]
      simp [setError, hne, h1]
  refine ⟨fun hp hs => ?_, fun hp => ?_, ?_, ?_, ?_⟩
  · subst hs
    unfold requestUpdate
    rw [init_spawn hp]
    simp [setError, hne, h1]
  · unfold requestUpdate
    rw [init_skip hp]
    simp [setError, hne, h1]
  · intro c
    rcases hcases with h | h | h <;> rw [h] <;> simp
  · rcases hcases with h | h | h <;> rw [h]
  · intro hst
    rcases hcases with h | h | h <;>
      simp [h, powershellStateChanged, hst]

/-- C4 witness: `requestUpdate(999)` on a state whose process is already
running signals `updateTimeout`, does not arm the single-shot timer, and
writes nothing. -/
theorem c4_witness :
    ((0 : Int) < 999 ∧ (999 : Int) < minimumUpdateInterval)
    ∧ requestUpdate true 999 { initialState ['S'] with process := .running }
        = ({ { initialState ['S'] with process := .running } with
              position_error := .noError }, [Event.updateTimeout]) :=
  ⟨⟨by decide, by decide⟩,
   (c4_small_timeout_behaviour true 999 { initialState ['S'] with process := .running }
      (by decide) (by decide)).2.1 (by decide)⟩

/-- C7 witness: a concrete valid position with update interval 500 ms is
advanced by exactly 500 ms. -/
theorem c7_witness :
    ({ initialState ['S'] with
        last_position :=
          { coord := { latitude := .val 1, longitude := .val 2, altitude := none }
            timestamp := some 1000
            h_accuracy := some (.val 5)
            v_accuracy := none }
        update_interval := 500 } : PSState).last_position.isValid = true
    ∧ (periodicUpdateTimeout { initialState ['S'] with
        last_position :=
          { coord := { latitude := .val 1, longitude := .val 2, altitude := none }
            timestamp := some 1000
            h_accuracy := some (.val 5)
            v_accuracy := none }
        update_interval := 500 }).1.last_position.timestamp = some 1500 :=
  ⟨by decide,
   by
    rw [(c7_periodic_timeout_synthetic_update _ (by decide)).1]
    decide⟩

/-- C10: a `Position;Ready;` line with fewer than the seven required
semicolon-delimited fields after the tag (fewer than 7 `';'` in the line)
is handled totally -- every field extraction returns an in-bounds segment
of the line -- and the record is rejected: no `positionUpdated` signal is
emitted and the last-known position is unchanged (the reject branch sets
`UnknownSourceError`). -/
theorem c10_missing_fields_rejected (rest : List Char) (s : PSState)
    (hcount : ((posReadyTag ++ rest).count ';') < 7) :
    (∀ r : Reader,
      SegmentOf (readField (posReadyTag ++ rest) r).2 (posReadyTag ++ rest))
    ∧ processPosition (posReadyTag ++ rest) s
        = ({ s with position_error := .unknownSourceError },
           [Event.errorSignaled .unknownSourceError])
    ∧ (∀ p, Event.positionUpdated p ∉ (processPosition (posReadyTag ++ rest) s).2)
    ∧ (processPosition (posReadyTag ++ rest) s).1.last_position = s.last_position := by
  have hk : rest.count ';' < 5 := by
    have happ := List.count_append ';' posReadyTag rest
    have htag : (posReadyTag.count ';') = 2 := by decide
    omega
  have hrej : processPosition (posReadyTag ++ rest) s
      = setError .unknownSourceError s := by
    obtain hk0 | hk1 | hk2 | hk3 | hk4 :
        rest.count ';' = 0 ∨ rest.count ';' = 1 ∨ rest.count ';' = 2
          ∨ rest.count ';' = 3 ∨ rest.count ';' = 4 := by omega
    · -- no delimiter after the tag: the latitude read wraps to "Position"
      have hr : ';' ∉ rest := count_semi_zero hk0
      have hts : tsR (posReadyTag ++ rest) = (⟨15, none⟩, rest) := by
        unfold tsR
        rw [statusR_tag]
        exact readField_last (drop15_tag rest) hr
      have hlat : latR (posReadyTag ++ rest) = (⟨0, some 8⟩, "Position".toList) := by
        unfold latR
        rw [hts]
        exact (readField_wrap (a := "Position".toList)
          (t := "Ready;".toList ++ rest) rfl (by decide)).1
      have hok : (toDoubleOk (latR (posReadyTag ++ rest)).2).2 = false := by
        rw [hlat]; decide
      unfold processPosition
      rw [if_neg (by simp [statusR_tag]),
        if_pos (Or.inr (Or.inr (by simp [hok])))]
    · -- one delimiter: the longitude read wraps to "Position"
      obtain ⟨r0, b1, hr0, hb1, hrest⟩ := count_semi_split hk1
      have hnb1 : ';' ∉ b1 := count_semi_zero hb1
      have hd15 : (posReadyTag ++ rest).drop 15 = r0 ++ ';' :: b1 := by
        rw [drop15_tag, hrest]
      have hstep1 := readField_step (x := 9) hd15 hr0
      have hts : tsR (posReadyTag ++ rest) = (⟨15, some (15 + r0.length)⟩, r0) := by
        unfold tsR
        rw [statusR_tag]
        exact hstep1.1
      have hlat : latR (posReadyTag ++ rest)
          = (⟨15 + r0.length + 1, none⟩, b1) := by
        unfold latR
        rw [hts]
        exact readField_last hstep1.2 hnb1
      have hlon : lonR (posReadyTag ++ rest) = (⟨0, some 8⟩, "Position".toList) := by
        unfold lonR
        rw [hlat]
        exact (readField_wrap (a := "Position".toList)
          (t := "Ready;".toList ++ rest) rfl (by decide)).1
      have hok : (toDoubleOk (lonR (posReadyTag ++ rest)).2).2 = false := by
        rw [hlon]; decide
      unfold processPosition
      rw [if_neg (by simp [statusR_tag]),
        if_pos (Or.inr (Or.inr (by simp [hok])))]
    · -- two delimiters: the altitude read wraps to "Position"
      obtain ⟨r0, b1, hr0, hb1, hrest⟩ := count_semi_split hk2
      obtain ⟨r1, b2, hr1, hb2, hb1eq⟩ := count_semi_split hb1
      have hnb2 : ';' ∉ b2 := count_semi_zero hb2
      have hd15 : (posReadyTag ++ rest).drop 15 = r0 ++ ';' :: b1 := by
        rw [drop15_tag, hrest]
      have hstep1 := readField_step (x := 9) hd15 hr0
      have hts : tsR (posReadyTag ++ rest) = (⟨15, some (15 + r0.length)⟩, r0) := by
        unfold tsR
        rw [statusR_tag]
        exact hstep1.1
      have hd2 : (posReadyTag ++ rest).drop (15 + r0.length + 1)
          = r1 ++ ';' :: b2 := hstep1.2.trans hb1eq
      have hstep2 := readField_step (x := 15) hd2 hr1
      have hlat : latR (posReadyTag ++ rest)
          = (⟨15 + r0.length + 1, some (15 + r0.length + 1 + r1.length)⟩, r1) := by
        unfold latR
        rw [hts]
        exact hstep2.1
      have hlon : lonR (posReadyTag ++ rest)
          = (⟨15 + r0.length + 1 + r1.length + 1, none⟩, b2) := by
        unfold lonR
        rw [hlat]
        exact readField_last hstep2.2 hnb2
      have halt : altR (posReadyTag ++ rest) = (⟨0, some 8⟩, "Position".toList) := by
        unfold altR
        rw [hlon]
        exact (readField_wrap (a := "Position".toList)
          (t := "Ready;".toList ++ rest) rfl (by decide)).1
      have hok : (toDoubleOk (altR (posReadyTag ++ rest)).2).2 = false := by
        rw [halt]; decide
      unfold processPosition
      rw [if_neg (by simp [statusR_tag]),
        if_pos (Or.inr (Or.inr (by simp [hok])))]
    · -- three delimiters: the horizontal accuracy read wraps to "Position"
      obtain ⟨r0, b1, hr0, hb1, hrest⟩ := count_semi_split hk3
      obtain ⟨r1, b2, hr1, hb2, hb1eq⟩ := count_semi_split hb1
      obtain ⟨r2, b3, hr2, hb3, hb2eq⟩ := count_semi_split hb2
      have hnb3 : ';' ∉ b3 := count_semi_zero hb3
      have hd15 : (posReadyTag ++ rest).drop 15 = r0 ++ ';' :: b1 := by
        rw [drop15_tag, hrest]
      have hstep1 := readField_step (x := 9) hd15 hr0
      have hts : tsR (posReadyTag ++ rest) = (⟨15, some (15 + r0.length)⟩, r0) := by
        unfold tsR
        rw [statusR_tag]
        exact hstep1.1
      have hd2 : (posReadyTag ++ rest).drop (15 + r0.length + 1)
          = r1 ++ ';' :: b2 := hstep1.2.trans hb1eq
      have hstep2 := readField_step (x := 15) hd2 hr1
      have hlat : latR (posReadyTag ++ rest)
          = (⟨15 + r0.length + 1, some (15 + r0.length + 1 + r1.length)⟩, r1) := by
        unfold latR
        rw [hts]
        exact hstep2.1
      have hd3 : (posReadyTag ++ rest).drop (15 + r0.length + 1 + r1.length + 1)
          = r2 ++ ';' :: b3 := hstep2.2.trans hb2eq
      have hstep3 := readField_step (x := 16) hd3 hr2
      have hlon : lonR (posReadyTag ++ rest)
          = (⟨15 + r0.length + 1 + r1.length + 1,
              some (15 + r0.length + 1 + r1.length + 1 + r2.length)⟩, r2) := by
        unfold lonR
        rw [hlat]
        exact hstep3.1
      have halt : altR (posReadyTag ++ rest)
          = (⟨15 + r0.length + 1 + r1.length + 1 + r2.length + 1, none⟩, b3) := by
        unfold altR
        rw [hlon]
        exact readField_last hstep3.2 hnb3
      have hhacc : haccR (posReadyTag ++ rest)
          = (⟨0, some 8⟩, "Position".toList) := by
        unfold haccR
        rw [halt]
        exact (readField_wrap (a := "Position".toList)
          (t := "Ready;".toList ++ rest) rfl (by decide)).1
      have hok : (toDoubleOk (haccR (posReadyTag ++ rest)).2).2 = false := by
        rw [hhacc]; decide
      unfold processPosition
      rw [if_neg (by simp [statusR_tag]),
        if_pos (Or.inr (Or.inr (by simp [hok])))]
    · -- four delimiters: the vertical accuracy read wraps, final pos = 0
      obtain ⟨r0, b1, hr0, hb1, hrest⟩ := count_semi_split hk4
      obtain ⟨r1, b2, hr1, hb2, hb1eq⟩ := count_semi_split hb1
      obtain ⟨r2, b3, hr2, hb3, hb2eq⟩ := count_semi_split hb2
      obtain ⟨r3, b4, hr3, hb4, hb3eq⟩ := count_semi_split hb3
      have hnb4 : ';' ∉ b4 := count_semi_zero hb4
      have hd15 : (posReadyTag ++ rest).drop 15 = r0 ++ ';' :: b1 := by
        rw [drop15_tag, hrest]
      have hstep1 := readField_step (x := 9) hd15 hr0
      have hts : tsR (posReadyTag ++ rest) = (⟨15, some (15 + r0.length)⟩, r0) := by
        unfold tsR
        rw [statusR_tag]
        exact hstep1.1
      have hd2 : (posReadyTag ++ rest).drop (15 + r0.length + 1)
          = r1 ++ ';' :: b2 := hstep1.2.trans hb1eq
      have hstep2 := readField_step (x := 15) hd2 hr1
      have hlat : latR (posReadyTag ++ rest)
          = (⟨15 + r0.length + 1, some (15 + r0.length + 1 + r1.length)⟩, r1) := by
        unfold latR
        rw [hts]
        exact hstep2.1
      have hd3 : (posReadyTag ++ rest).drop (15 + r0.length + 1 + r1.length + 1)
          = r2 ++ ';' :: b3 := hstep2.2.trans hb2eq
      have hstep3 := readField_step (x := 16) hd3 hr2
      have hlon : lonR (posReadyTag ++ rest)
          = (⟨15 + r0.length + 1 + r1.length + 1,
              some (15 + r0.length + 1 + r1.length + 1 + r2.length)⟩, r2) := by
        unfold lonR
        rw [hlat]
        exact hstep3.1
      have hd4 : (posReadyTag ++ rest).drop
            (15 + r0.length + 1 + r1.length + 1 + r2.length + 1)
          = r3 ++ ';' :: b4 := hstep3.2.trans hb3eq
      have hstep4 := readField_step (x := 17) hd4 hr3
      have halt : altR (posReadyTag ++ rest)
          = (⟨15 + r0.length + 1 + r1.length + 1 + r2.length + 1,
              some (15 + r0.length + 1 + r1.length + 1 + r2.length + 1 + r3.length)⟩,
             r3) := by
        unfold altR
        rw [hlon]
        exact hstep4.1
      have hhacc : haccR (posReadyTag ++ rest)
          = (⟨15 + r0.length + 1 + r1.length + 1 + r2.length + 1 + r3.length + 1,
              none⟩, b4) := by
        unfold haccR
        rw [halt]
        exact readField_last hstep4.2 hnb4
      have hvacc : vaccR (posReadyTag ++ rest)
          = (⟨0, some 8⟩, "Position".toList) := by
        unfold vaccR
        rw [hhacc]
        exact (readField_wrap (a := "Position".toList)
          (t := "Ready;".toList ++ rest) rfl (by decide)).1
      have hzero : (vaccR (posReadyTag ++ rest)).1.pos = 0 := by
        rw [hvacc]
      unfold processPosition
      rw [if_neg (by simp [statusR_tag]), if_pos (Or.inl hzero)]
  refine ⟨fun r => readField_segment (posReadyTag ++ rest) r, ?_, ?_, ?_⟩
  · rw [hrej, setError_emit s (by simp)]
  · intro p hp
    rw [hrej, setError_emit s (by simp)] at hp
    simp at hp
  · rw [hrej, setError_emit s (by simp)]

/-- C10 witness: the truncated line
`Position;Ready;2020-01-01T00:00:00Z;52.5` (3 of 7 delimiters) is rejected
with no position update. -/
theorem c10_witness :
    ((posReadyTag ++ "2020-01-01T00:00:00Z;52.5".toList).count ';') < 7
    ∧ processPosition (posReadyTag ++ "2020-01-01T00:00:00Z;52.5".toList)
          (initialState ['S'])
        = ({ initialState ['S'] with position_error := .unknownSourceError },
           [Event.errorSignaled .unknownSourceError]) :=
  ⟨by decide,
   (c10_missing_fields_rejected "2020-01-01T00:00:00Z;52.5".toList
      (initialState ['S']) (by decide)).2.1⟩

end PowershellPosition
